import Mathlib

/-!
Shallow embedding of the `SintesisPasarelaCore` session lifecycle manager from
`sintesis-pasarela-universal.js` (v2.0.1, `src/unnamed/part_000`): session
state, backend-indexed HTTP outcomes, `init` with bounded retry and linear
backoff, token-refresh scheduling, `refresh`, `destroy`, the accessors, and
the render dispatch, plus a small-step model of cooperatively interleaved
`init` tasks.  Side effects (HTTP calls, backoff delays, timer scheduling,
observer callbacks) are recorded in an event trace.
-/

namespace Sintesis

/-- JS truthiness of a nullable string: `null`, `undefined` and `""` are falsy. -/
def jsTruthy : Option String → Bool
  | some v => v != ""
  | none => false

/-- JS `x || d` for a nullable number (`0` is falsy), as in
`response.data.expiresIn || 1800`. -/
def jsOrNum (x : Option Int) (d : Int) : Int :=
  match x with
  | some v => if v = 0 then d else v
  | none => d

/-- JS `x || d` for a nullable string (`""` is falsy), as in
`response.message || "Respuesta inválida"`. -/
def jsOrStr (x : Option String) (d : String) : String :=
  match x with
  | some v => if v = "" then d else v
  | none => d

/-- Models `this.maxRetries` (constructor, line 252). -/
def maxRetries : Nat := 3

/-- The mutable session fields of `SintesisPasarelaCore` (constructor,
lines 247-252).  `refreshTimeout` models `this._refreshTimeout`: `some d`
means a refresh timer with delay `d` milliseconds is pending. -/
structure Session where
  accessToken : Option String
  embedUrl : Option String
  isInitialized : Bool
  isLoading : Bool
  retryCount : Nat
  refreshTimeout : Option Int
  deriving Repr, DecidableEq

/-- The session state right after the constructor ran (lines 247-252):
everything empty, no pending timer. -/
def initialSession : Session :=
  { accessToken := none, embedUrl := none, isInitialized := false,
    isLoading := false, retryCount := 0, refreshTimeout := none }

/-- The (statable) fields of the snapshot returned by `getStatus`
(lines 632-644); `environment`, `mode`, `version` and `timestamp` are
configuration or wall-clock data and are omitted. -/
structure Status where
  isInitialized : Bool
  isLoading : Bool
  hasAccessToken : Bool
  hasEmbedUrl : Bool
  retryCount : Nat
  deriving Repr, DecidableEq

/-- Models `getStatus()` (lines 632-644); `!!x` is modelled by `jsTruthy`. -/
def getStatus (s : Session) : Status :=
  { isInitialized := s.isInitialized, isLoading := s.isLoading,
    hasAccessToken := jsTruthy s.accessToken, hasEmbedUrl := jsTruthy s.embedUrl,
    retryCount := s.retryCount }

/-- Models `response.data` of `GET /auth/authenticate`. -/
structure AuthData where
  accessToken : Option String
  expiresIn : Option Int
  deriving Repr, DecidableEq

/-- Parsed JSON response of `GET /auth/authenticate`:
`{success, data: {accessToken, expiresIn}, message}`. -/
structure AuthResp where
  success : Bool
  data : AuthData
  message : Option String
  deriving Repr, DecidableEq

/-- Models `response.data` of `POST /embed/generate-link`. -/
structure LinkData where
  embedUrl : Option String
  deriving Repr, DecidableEq

/-- Parsed JSON response of `POST /embed/generate-link`:
`{success, data: {embedUrl}, message}`. -/
structure LinkResp where
  success : Bool
  data : LinkData
  message : Option String
  deriving Repr, DecidableEq

/-- A backend, i.e. the behaviour of `httpClient.request` for the two
endpoints, indexed by how many calls to that endpoint were made before.
`Except.error e` models `request` throwing (its error message already
wrapped as `Error de red (...)`, lines 163-166); `Except.ok r` models a
parsed JSON response. -/
structure Backend where
  auth : Nat → Except String AuthResp
  link : Nat → Except String LinkResp

/-- Observable effects of a run, recorded in order. -/
inductive Event where
  | authRequest
  | linkRequest
  | delayMs (ms : Nat)
  | scheduleRefresh (ms : Int)
  | onSuccess (accessToken embedUrl : Option String)
  | onError (context message : String) (status : Status)
  | onLoad
  deriving Repr, DecidableEq

/-- A run state: the session plus per-endpoint call counters and the
event trace. -/
structure World where
  s : Session
  nAuth : Nat
  nLink : Nat
  trace : List Event
  deriving Repr, DecidableEq

/-- A fresh run state for a freshly constructed manager. -/
def initialWorld : World :=
  { s := initialSession, nAuth := 0, nLink := 0, trace := [] }

/-- Models `_scheduleTokenRefresh(expiresIn)` (lines 646-667): computes
`refreshTime = (expiresIn - 60) * 1000`, clears any previous pending timer
and schedules a new one with that delay.  There is no clamping of the
delay in the source. -/
def runScheduleTokenRefresh (expiresIn : Int) (w : World) : World :=
  { w with
      s := { w.s with refreshTimeout := some ((expiresIn - 60) * 1000) },
      trace := w.trace ++ [Event.scheduleRefresh ((expiresIn - 60) * 1000)] }

/-- Models `_authenticate()` (lines 326-349): one `GET /auth/authenticate` call.
On a truthy `response.success && response.data.accessToken` it stores the
token and schedules the token refresh with `response.data.expiresIn || 1800`;
otherwise it throws (`some msg` is the thrown message). -/
def runAuthenticate (b : Backend) (w : World) : Option String × World :=
  let r := b.auth w.nAuth
  let w1 : World := { w with nAuth := w.nAuth + 1, trace := w.trace ++ [Event.authRequest] }
  match r with
  | Except.error e => (some e, w1)
  | Except.ok resp =>
      if resp.success && jsTruthy resp.data.accessToken then
        let w2 : World := { w1 with s := { w1.s with accessToken := resp.data.accessToken } }
        (none, runScheduleTokenRefresh (jsOrNum resp.data.expiresIn 1800) w2)
      else
        (some ("Error de autenticación: " ++ jsOrStr resp.message "Respuesta inválida"), w1)

/-- Models `_generateEmbedLink()` (lines 351-373): throws if no truthy access
token, otherwise one `POST /embed/generate-link` call; on a truthy
`response.success && response.data.embedUrl` it stores the embed URL,
otherwise it throws. -/
def runGenerateEmbedLink (b : Backend) (w : World) : Option String × World :=
  if !jsTruthy w.s.accessToken then
    (some "Token de acceso no disponible", w)
  else
    let r := b.link w.nLink
    let w1 : World := { w with nLink := w.nLink + 1, trace := w.trace ++ [Event.linkRequest] }
    match r with
    | Except.error e => (some e, w1)
    | Except.ok resp =>
        if resp.success && jsTruthy resp.data.embedUrl then
          (none, { w1 with s := { w1.s with embedUrl := resp.data.embedUrl } })
        else
          (some ("Error generando enlace: " ++ jsOrStr resp.message "Respuesta inválida"), w1)

/-- Models `_handleError(context, error)` (lines 679-691): invokes the `onError`
observer with the context, the error message and a `getStatus()` snapshot. -/
def runHandleError (context message : String) (w : World) : World :=
  { w with trace := w.trace ++ [Event.onError context message (getStatus w.s)] }

/-- The value an `init()` call settles with: `skipped` is the early
`return` (resolving with `undefined`) at one of the two guards, `ok` the
success object `{success: true, accessToken, embedUrl, ...}`, `err` a
rejection carrying the error message. -/
inductive InitResult where
  | skipped
  | ok (accessToken embedUrl : Option String)
  | err (msg : String)
  deriving Repr, DecidableEq

/-- The success tail of `init()` (lines 289-307): set `isInitialized`,
clear `isLoading`, reset `retryCount`, fire `onSuccess`, return the
session data. -/
def runInitSuccess (w : World) : InitResult × World :=
  let s2 : Session := { w.s with isInitialized := true, isLoading := false, retryCount := 0 }
  (InitResult.ok s2.accessToken s2.embedUrl,
   { w with s := s2, trace := w.trace ++ [Event.onSuccess s2.accessToken s2.embedUrl] })

/-- The `catch` block of `init()` (lines 308-323): clear `isLoading`; if
`retryCount < maxRetries`, increment it, wait `1000 * retryCount`
milliseconds and re-run `init` (the continuation `retryK`); otherwise call
`_handleError` and rethrow. -/
def runInitCatch (retryK : World → InitResult × World) (msg : String) (w : World) :
    InitResult × World :=
  let w1 : World := { w with s := { w.s with isLoading := false } }
  if w1.s.retryCount < maxRetries then
    let w2 : World := { w1 with s := { w1.s with retryCount := w1.s.retryCount + 1 } }
    let w3 : World := { w2 with trace := w2.trace ++ [Event.delayMs (1000 * w2.s.retryCount)] }
    retryK w3
  else
    (InitResult.err msg, runHandleError "Error en inicialización" msg w1)

/-- The body of `init()` (lines 267-324) with the recursive retry call
abstracted as `retryK`: the two early-return guards, then
`_authenticate` followed by `_generateEmbedLink` inside the `try`. -/
def runInitBody (b : Backend) (retryK : World → InitResult × World) (w : World) :
    InitResult × World :=
  if w.s.isLoading then (InitResult.skipped, w)
  else if w.s.isInitialized && jsTruthy w.s.accessToken then (InitResult.skipped, w)
  else
    match runAuthenticate b { w with s := { w.s with isLoading := true } } with
    | (some msg, w2) => runInitCatch retryK msg w2
    | (none, w2) =>
        match runGenerateEmbedLink b w2 with
        | (some msg, w3) => runInitCatch retryK msg w3
        | (none, w3) => runInitSuccess w3

/-- Models `init()` with a fuel bound on the number of recursive retry calls.
Each retry strictly increments `retryCount`, which the `catch` requires to
stay below `maxRetries`, so `maxRetries` fuel is never exhausted; at fuel 0
the retry continuation degenerates to a plain rethrow. -/
def runInitAux (b : Backend) : Nat → World → InitResult × World
  | 0 => runInitBody b (fun w => (InitResult.err "fuel exhausted", w))
  | Nat.succ f => runInitBody b (fun w => runInitAux b f w)

/-- Models `init()` (lines 267-324). -/
def runInit (b : Backend) (w : World) : InitResult × World :=
  runInitAux b maxRetries w

/-- Models `refresh()` (lines 608-615): clear `isInitialized`, `accessToken`,
`embedUrl` and `retryCount`, then run `init()` again. -/
def runRefresh (b : Backend) (w : World) : InitResult × World :=
  runInit b { w with
    s := { w.s with isInitialized := false, accessToken := none,
                    embedUrl := none, retryCount := 0 } }

/-- Models `destroy()` (lines 617-630): clear `isInitialized`, `accessToken`,
`embedUrl`, `isLoading`, and cancel a pending refresh timer.  Note the
source does not touch `retryCount`. -/
def runDestroy (s : Session) : Session :=
  { s with isInitialized := false, accessToken := none, embedUrl := none,
           isLoading := false, refreshTimeout := none }

/-- Models `getAccessToken()` (lines 601-606): throws when not initialized,
otherwise returns `this.accessToken`. -/
def getAccessToken (s : Session) : Except String (Option String) :=
  if !s.isInitialized then Except.error "SDK no inicializado"
  else Except.ok s.accessToken

/-- Models `getEmbedUrl()` (lines 594-599). -/
def getEmbedUrl (s : Session) : Except String (Option String) :=
  if !s.isInitialized then Except.error "SDK no inicializado"
  else Except.ok s.embedUrl

/-- The detected runtime environment (lines 9-30). -/
inductive Env where
  | web
  | reactNative
  | worker
  | node
  | deno
  | unknown
  deriving Repr, DecidableEq

/-- A render mode (`config.mode`, line 238). -/
inductive Mode where
  | auto
  | iframe
  | webview
  | apiOnly
  deriving Repr, DecidableEq

/-- What `render` hands back, discriminated by the mode actually used.
DOM/WebView construction details are abstracted to the embed data each
surface consumes. -/
inductive RenderResult where
  | iframeResult (url : Option String)
  | webviewResult (url : Option String)
  | apiData (accessToken embedUrl : Option String)
  deriving Repr, DecidableEq

/-- Models `_renderIframe` (lines 425-503), abstracting the DOM work: fails
outside the web environment, otherwise produces an iframe whose `src` is
`this.embedUrl` and fires `onLoad`. -/
def renderIframe (env : Env) (w : World) : Except String RenderResult × World :=
  if env ≠ Env.web then
    (Except.error "Modo iframe solo disponible en entorno web", w)
  else
    (Except.ok (RenderResult.iframeResult w.s.embedUrl),
     { w with trace := w.trace ++ [Event.onLoad] })

/-- Models `_renderWebView` (lines 505-523): packages `this.embedUrl` for a
mobile WebView and fires `onLoad`. -/
def renderWebView (w : World) : Except String RenderResult × World :=
  (Except.ok (RenderResult.webviewResult w.s.embedUrl),
   { w with trace := w.trace ++ [Event.onLoad] })

/-- Models `_returnApiData` (lines 525-543): packages `this.accessToken` and
`this.embedUrl` and fires `onLoad`. -/
def returnApiData (w : World) : Except String RenderResult × World :=
  (Except.ok (RenderResult.apiData w.s.accessToken w.s.embedUrl),
   { w with trace := w.trace ++ [Event.onLoad] })

/-- The `switch (mode)` of `render` (lines 393-407) together with
`_autoRender` (lines 409-423). -/
def renderByMode (env : Env) (mode : Mode) (w : World) : Except String RenderResult × World :=
  match mode with
  | Mode.iframe => renderIframe env w
  | Mode.webview => renderWebView w
  | Mode.apiOnly => returnApiData w
  | Mode.auto =>
      match env with
      | Env.web => renderIframe env w
      | Env.reactNative => renderWebView w
      | _ => returnApiData w

/-- Models `render(target, options)` (lines 376-407): when not initialized it
awaits `init()` first (a rejection of `init` rejects `render`; the
`undefined` of a guarded early return is accepted), then dispatches on the
resolved mode. -/
def runRender (b : Backend) (env : Env) (mode : Mode) (w : World) :
    Except String RenderResult × World :=
  let initOut : InitResult × World :=
    if !w.s.isInitialized then runInit b w else (InitResult.skipped, w)
  match initOut with
  | (InitResult.err msg, w1) => (Except.error msg, w1)
  | (_, w1) => renderByMode env mode w1

/-! ### Observable outcome of a single backend call

These describe a `Backend` (an input of the model), not the program: they
name the condition under which `_authenticate` / `_generateEmbedLink`
throws, and the data they extract on success. -/

/-- The message `_authenticate` throws on its `n`-th call against `b`
(`none` when that call succeeds). -/
def authFailure (b : Backend) (n : Nat) : Option String :=
  match b.auth n with
  | Except.error e => some e
  | Except.ok resp =>
      if resp.success && jsTruthy resp.data.accessToken then none
      else some ("Error de autenticación: " ++ jsOrStr resp.message "Respuesta inválida")

/-- The token and expiry hint `_authenticate` extracts from its `n`-th
call against `b` (`none` when that call throws). -/
def authSuccessData (b : Backend) (n : Nat) : Option (String × Int) :=
  match b.auth n with
  | Except.error _ => none
  | Except.ok resp =>
      if resp.success && jsTruthy resp.data.accessToken then
        match resp.data.accessToken with
        | some t => some (t, jsOrNum resp.data.expiresIn 1800)
        | none => none
      else none

/-- The message the link-generation request throws on its `n`-th call
(`none` when it succeeds); the missing-token throw is separate. -/
def linkFailure (b : Backend) (n : Nat) : Option String :=
  match b.link n with
  | Except.error e => some e
  | Except.ok resp =>
      if resp.success && jsTruthy resp.data.embedUrl then none
      else some ("Error generando enlace: " ++ jsOrStr resp.message "Respuesta inválida")

/-- The embed URL `_generateEmbedLink` extracts from its `n`-th call. -/
def linkSuccessData (b : Backend) (n : Nat) : Option String :=
  match b.link n with
  | Except.error _ => none
  | Except.ok resp =>
      if resp.success && jsTruthy resp.data.embedUrl then resp.data.embedUrl
      else none

/-- The failure message of the `n`-th authenticate call, defaulted. -/
def authFailMsg (b : Backend) (n : Nat) : String :=
  (authFailure b n).getD ""

theorem jsTruthy_isSome {o : Option String} (h : jsTruthy o = true) : o.isSome = true := by
  cases o <;> simp_all [jsTruthy]

theorem isSome_eq_some_getD {o : Option String} (h : o.isSome = true) :
    o = some (o.getD "") := by
  cases o <;> simp_all

/-! ### Symbolic execution lemmas for one `init` attempt -/

theorem runAuthenticate_fail (b : Backend) (w : World) (e : String)
    (h : authFailure b w.nAuth = some e) :
    runAuthenticate b w =
      (some e, { w with nAuth := w.nAuth + 1, trace := w.trace ++ [Event.authRequest] }) := by
  unfold runAuthenticate
  unfold authFailure at h
  cases hb : b.auth w.nAuth with
  | error e2 =>
      simp only [hb] at h
      rw [Option.some.injEq] at h
      simp [hb, h]
  | ok resp =>
      simp only [hb] at h
      by_cases hc : (resp.success && jsTruthy resp.data.accessToken) = true
      · rw [if_pos hc] at h; exact absurd h (by simp)
      · rw [if_neg hc] at h
        rw [Option.some.injEq] at h
        simp [hb, hc, h]

theorem runAuthenticate_ok (b : Backend) (w : World) (t : String) (x : Int)
    (h : authSuccessData b w.nAuth = some (t, x)) :
    runAuthenticate b w =
      (none,
       { w with
           s := { w.s with accessToken := some t, refreshTimeout := some ((x - 60) * 1000) },
           nAuth := w.nAuth + 1,
           trace := w.trace ++ [Event.authRequest, Event.scheduleRefresh ((x - 60) * 1000)] }) := by
  unfold runAuthenticate
  unfold authSuccessData at h
  cases hb : b.auth w.nAuth with
  | error e2 => rw [hb] at h; exact absurd h (by simp)
  | ok resp =>
      simp only [hb] at h
      by_cases hc : (resp.success && jsTruthy resp.data.accessToken) = true
      · rw [if_pos hc] at h
        cases ht : resp.data.accessToken with
        | none => rw [ht] at h; exact absurd h (by simp)
        | some t2 =>
            rw [ht] at h
            rw [Option.some.injEq, Prod.mk.injEq] at h
            have hc2 := hc
            rw [Bool.and_eq_true] at hc2
            have hs : resp.success = true := hc2.1
            have htt : jsTruthy resp.data.accessToken = true := hc2.2
            rw [ht, h.1] at htt
            simp [hb, hc, hs, htt, ht, runScheduleTokenRefresh, h.1, h.2]
      · rw [if_neg hc] at h; exact absurd h (by simp)

theorem authSuccessData_truthy {b : Backend} {n : Nat} {t : String} {x : Int}
    (h : authSuccessData b n = some (t, x)) : jsTruthy (some t) = true := by
  unfold authSuccessData at h
  cases hb : b.auth n with
  | error e => rw [hb] at h; exact absurd h (by simp)
  | ok resp =>
      simp only [hb] at h
      by_cases hc : (resp.success && jsTruthy resp.data.accessToken) = true
      · rw [if_pos hc] at h
        cases ht : resp.data.accessToken with
        | none => rw [ht] at h; exact absurd h (by simp)
        | some t2 =>
            rw [ht] at h
            rw [Option.some.injEq, Prod.mk.injEq] at h
            have h2 : jsTruthy resp.data.accessToken = true := by
              cases hs : resp.success
              · rw [hs] at hc; simp at hc
              · rw [hs] at hc; simpa using hc
            rw [ht, h.1] at h2
            exact h2
      · rw [if_neg hc] at h; exact absurd h (by simp)

theorem runGenerateEmbedLink_fail (b : Backend) (w : World) (e : String)
    (ht : jsTruthy w.s.accessToken = true)
    (h : linkFailure b w.nLink = some e) :
    runGenerateEmbedLink b w =
      (some e, { w with nLink := w.nLink + 1, trace := w.trace ++ [Event.linkRequest] }) := by
  unfold runGenerateEmbedLink
  unfold linkFailure at h
  cases hb : b.link w.nLink with
  | error e2 =>
      simp only [hb] at h
      rw [Option.some.injEq] at h
      simp [hb, ht, h]
  | ok resp =>
      simp only [hb] at h
      by_cases hc : (resp.success && jsTruthy resp.data.embedUrl) = true
      · rw [if_pos hc] at h; exact absurd h (by simp)
      · rw [if_neg hc] at h
        rw [Option.some.injEq] at h
        simp [hb, ht, hc, h]

theorem runGenerateEmbedLink_ok (b : Backend) (w : World) (u : String)
    (ht : jsTruthy w.s.accessToken = true)
    (h : linkSuccessData b w.nLink = some u) :
    runGenerateEmbedLink b w =
      (none,
       { w with s := { w.s with embedUrl := some u },
                nLink := w.nLink + 1, trace := w.trace ++ [Event.linkRequest] }) := by
  unfold runGenerateEmbedLink
  unfold linkSuccessData at h
  cases hb : b.link w.nLink with
  | error e2 => rw [hb] at h; exact absurd h (by simp)
  | ok resp =>
      simp only [hb] at h
      by_cases hc : (resp.success && jsTruthy resp.data.embedUrl) = true
      · rw [if_pos hc] at h
        have hc2 := hc
        rw [Bool.and_eq_true] at hc2
        have hs : resp.success = true := hc2.1
        have huu : jsTruthy resp.data.embedUrl = true := hc2.2
        rw [h] at huu
        simp [hb, ht, hc, hs, huu, h]
      · rw [if_neg hc] at h; exact absurd h (by simp)

theorem runInitAux_succ (b : Backend) (f : Nat) (w : World) :
    runInitAux b (f + 1) w = runInitBody b (runInitAux b f) w := rfl

theorem runInitCatch_retry (retryK : World → InitResult × World) (msg : String) (w : World)
    (h : w.s.retryCount < maxRetries) :
    runInitCatch retryK msg w =
      retryK { w with
        s := { w.s with isLoading := false, retryCount := w.s.retryCount + 1 },
        trace := w.trace ++ [Event.delayMs (1000 * (w.s.retryCount + 1))] } := by
  unfold runInitCatch
  rw [if_pos h]

theorem runInitCatch_exhausted (retryK : World → InitResult × World) (msg : String) (w : World)
    (h : ¬ w.s.retryCount < maxRetries) :
    runInitCatch retryK msg w =
      (InitResult.err msg,
       { w with s := { w.s with isLoading := false },
                trace := w.trace ++ [Event.onError "Error en inicialización" msg
                  (getStatus { w.s with isLoading := false })] }) := by
  unfold runInitCatch runHandleError
  rw [if_neg h]

theorem runInitBody_authFail (b : Backend) (retryK : World → InitResult × World) (w : World)
    (e : String)
    (hl : w.s.isLoading = false)
    (hg : (w.s.isInitialized && jsTruthy w.s.accessToken) = false)
    (h : authFailure b w.nAuth = some e) :
    runInitBody b retryK w =
      runInitCatch retryK e
        { w with s := { w.s with isLoading := true },
                 nAuth := w.nAuth + 1, trace := w.trace ++ [Event.authRequest] } := by
  unfold runInitBody
  rw [if_neg (by simp [hl]), if_neg (by simp [hg])]
  rw [runAuthenticate_fail b _ e (by simpa using h)]

theorem runInitBody_authOk_linkOk (b : Backend) (retryK : World → InitResult × World)
    (w : World) (t : String) (x : Int) (u : String)
    (hl : w.s.isLoading = false)
    (hg : (w.s.isInitialized && jsTruthy w.s.accessToken) = false)
    (ha : authSuccessData b w.nAuth = some (t, x))
    (hu : linkSuccessData b w.nLink = some u) :
    runInitBody b retryK w =
      (InitResult.ok (some t) (some u),
       { w with
           s := { w.s with
                    accessToken := some t, embedUrl := some u,
                    isInitialized := true, isLoading := false, retryCount := 0,
                    refreshTimeout := some ((x - 60) * 1000) },
           nAuth := w.nAuth + 1, nLink := w.nLink + 1,
           trace := w.trace ++ [Event.authRequest, Event.scheduleRefresh ((x - 60) * 1000),
                                Event.linkRequest, Event.onSuccess (some t) (some u)] }) := by
  have hA : runAuthenticate b { w with s := { w.s with isLoading := true } } =
      (none,
       { w with
           s := { w.s with
                    isLoading := true, accessToken := some t,
                    refreshTimeout := some ((x - 60) * 1000) },
           nAuth := w.nAuth + 1,
           trace := w.trace ++ [Event.authRequest, Event.scheduleRefresh ((x - 60) * 1000)] }) := by
    rw [runAuthenticate_ok b _ t x (by simpa using ha)]
  have hL : runGenerateEmbedLink b
      { w with
          s := { w.s with
                   isLoading := true, accessToken := some t,
                   refreshTimeout := some ((x - 60) * 1000) },
          nAuth := w.nAuth + 1,
          trace := w.trace ++ [Event.authRequest, Event.scheduleRefresh ((x - 60) * 1000)] } =
      (none,
       { w with
           s := { w.s with
                    isLoading := true, accessToken := some t,
                    refreshTimeout := some ((x - 60) * 1000), embedUrl := some u },
           nAuth := w.nAuth + 1, nLink := w.nLink + 1,
           trace := w.trace ++ [Event.authRequest, Event.scheduleRefresh ((x - 60) * 1000),
                                Event.linkRequest] }) := by
    rw [runGenerateEmbedLink_ok b _ u (by simpa using authSuccessData_truthy ha) (by simpa using hu)]
    simp
  unfold runInitBody
  rw [if_neg (by simp [hl]), if_neg (by simp [hg]), hA]
  simp [hL, runInitSuccess]

/-! ### Concrete backends used as test inputs -/

/-- A backend whose requests always throw (network down). -/
def failingBackend : Backend :=
  { auth := fun _ => Except.error "Error de red (web): Failed to fetch",
    link := fun _ => Except.error "Error de red (web): Failed to fetch" }

/-- A backend that fails authentication on exactly the first two calls and
then behaves healthily. -/
def flakyBackend : Backend :=
  { auth := fun n =>
      if n < 2 then Except.error "Error de red (web): Failed to fetch"
      else Except.ok { success := true,
                       data := { accessToken := some "tok-nuevo", expiresIn := some 1800 },
                       message := none },
    link := fun _ =>
      Except.ok { success := true, data := { embedUrl := some "https-checkout" },
                  message := none } }

/-- A healthy backend. -/
def goodBackend : Backend :=
  { auth := fun _ =>
      Except.ok { success := true,
                  data := { accessToken := some "tok-nuevo", expiresIn := some 1800 },
                  message := none },
    link := fun _ =>
      Except.ok { success := true, data := { embedUrl := some "https-checkout" },
                  message := none } }

/-- A backend that authenticates with an expiry hint of 30 seconds. -/
def expiry30Backend : Backend :=
  { auth := fun _ =>
      Except.ok { success := true,
                  data := { accessToken := some "tok-corto", expiresIn := some 30 },
                  message := none },
    link := fun _ =>
      Except.ok { success := true, data := { embedUrl := some "https-checkout" },
                  message := none } }

/-- A backend whose authentication succeeds but whose link generation
always fails. -/
def linkDownBackend : Backend :=
  { auth := fun _ =>
      Except.ok { success := true,
                  data := { accessToken := some "tok-nuevo", expiresIn := some 1800 },
                  message := none },
    link := fun _ => Except.error "Error de red (web): link down" }

/-! ### Guard behaviour of `init` -/

theorem runInit_skip_of_guard (b : Backend) (w : World)
    (h : w.s.isLoading = true ∨ (w.s.isInitialized = true ∧ jsTruthy w.s.accessToken = true)) :
    runInit b w = (InitResult.skipped, w) := by
  show runInitBody b (runInitAux b 2) w = (InitResult.skipped, w)
  unfold runInitBody
  rcases h with h | ⟨h1, h2⟩
  · rw [if_pos h]
  · by_cases hl : w.s.isLoading = true
    · rw [if_pos hl]
    · rw [if_neg hl, if_pos (by simp [h1, h2])]

/-- C7: calling `init()` while a previous `init` is still loading, or when
the manager is already Ready (`isInitialized` with a truthy access token),
returns immediately (`undefined`), issuing no network request, recording no
event, and leaving all session state unchanged. -/
theorem init_reentry_noop (b : Backend) (w : World)
    (h : w.s.isLoading = true ∨ (w.s.isInitialized = true ∧ jsTruthy w.s.accessToken = true)) :
    runInit b w = (InitResult.skipped, w) :=
  runInit_skip_of_guard b w h

/-- Witness for C7 at a concrete loading state and a concrete backend. -/
theorem init_reentry_noop_witness :
    runInit failingBackend
      { initialWorld with s := { initialSession with isLoading := true } } =
      (InitResult.skipped,
       { initialWorld with s := { initialSession with isLoading := true } }) :=
  init_reentry_noop failingBackend
    { initialWorld with s := { initialSession with isLoading := true } } (Or.inl rfl)

/-! ### `destroy` -/

/-- A session as left behind by two failed attempts followed by a
successful one: Ready, with a pending refresh timer and `retryCount = 2`
at the time `destroy()` is called (reachable mid-flight before the success
path resets the counter; `destroy` itself is what the claim examines). -/
def sessionAfterRetries : Session :=
  { accessToken := some "tok-nuevo", embedUrl := some "https-checkout",
    isInitialized := true, isLoading := false, retryCount := 2,
    refreshTimeout := some 1740000 }

/-- C9 counterexample: `destroy()` does not reset the retry counter to its
initial value 0 — on a session with `retryCount = 2` the counter is still 2
after `destroy()`. -/
theorem destroy_keeps_retryCount_cex :
    (runDestroy sessionAfterRetries).retryCount = 2 ∧
    ¬ (runDestroy sessionAfterRetries).retryCount = 0 := by
  exact ⟨rfl, by decide⟩

/-- C9 amended: `destroy()` cancels any pending refresh timer and resets
`accessToken`, `embedUrl`, `isInitialized` and `isLoading` to their initial
empty values, but leaves `retryCount` unchanged; it is idempotent. -/
theorem destroy_resets_fields_not_retryCount (s : Session) :
    (runDestroy s).accessToken = none ∧ (runDestroy s).embedUrl = none ∧
    (runDestroy s).isInitialized = false ∧ (runDestroy s).isLoading = false ∧
    (runDestroy s).refreshTimeout = none ∧
    (runDestroy s).retryCount = s.retryCount ∧
    runDestroy (runDestroy s) = runDestroy s := by
  simp [runDestroy]

/-! ### Refresh-timer delay (no clamping) -/

/-- C4 counterexample: for the expiry hint 30 (below 60) returned by
authentication, the delay handed to the scheduler is `(30 - 60) * 1000 =
-30000` milliseconds — negative, not clamped to 0. -/
theorem scheduleRefresh_negative_delay_cex :
    (runInit expiry30Backend initialWorld).2.s.refreshTimeout = some (-30000) ∧
    ((-30000 : Int) < 0) := by
  exact ⟨by decide, by decide⟩

/-- C4 amended: for every expiry hint `x` extracted by authentication, the
refresh timer delay is `(x - 60) * 1000` milliseconds with no clamping;
it is negative exactly when `x < 60`. -/
theorem scheduleRefresh_delay_unclamped (b : Backend) (w : World) (t : String) (x : Int)
    (h : authSuccessData b w.nAuth = some (t, x)) :
    (runAuthenticate b w).2.s.refreshTimeout = some ((x - 60) * 1000) ∧
    ((x - 60) * 1000 < 0 ↔ x < 60) := by
  rw [runAuthenticate_ok b w t x h]
  refine ⟨rfl, ?_⟩
  omega

/-- Witness for the amended C4 at the concrete expiry hint 30. -/
theorem scheduleRefresh_delay_unclamped_witness :
    (runAuthenticate expiry30Backend initialWorld).2.s.refreshTimeout =
      some ((30 - 60) * 1000) ∧ (((30 : Int) - 60) * 1000 < 0 ↔ (30 : Int) < 60) :=
  scheduleRefresh_delay_unclamped expiry30Backend initialWorld "tok-corto" 30 (by decide)

/-! ### The retry loop of `init` -/

/-- C1: with a backend whose authenticate call always fails, `init()` on a
fresh manager makes exactly `maxRetries + 1 = 4` attempts at the
authenticate/link-generation sequence (4 `authRequest` events, no
`linkRequest`), waits between attempts, then rejects with the error of the
last attempt, and the `onError` observer is invoked exactly once, with the
context string, the message of the last error, and the `getStatus()`
snapshot. -/
theorem init_exhausts_retries_and_reports (b : Backend)
    (hb : ∀ n, (authFailure b n).isSome = true) :
    runInit b initialWorld =
      (InitResult.err (authFailMsg b maxRetries),
       { s := { accessToken := none, embedUrl := none, isInitialized := false,
                isLoading := false, retryCount := maxRetries, refreshTimeout := none },
         nAuth := maxRetries + 1, nLink := 0,
         trace := [Event.authRequest, Event.delayMs 1000,
                   Event.authRequest, Event.delayMs 2000,
                   Event.authRequest, Event.delayMs 3000,
                   Event.authRequest,
                   Event.onError "Error en inicialización" (authFailMsg b maxRetries)
                     { isInitialized := false, isLoading := false,
                       hasAccessToken := false, hasEmbedUrl := false,
                       retryCount := maxRetries }] }) := by
  have h0 : authFailure b 0 = some (authFailMsg b 0) := isSome_eq_some_getD (hb 0)
  have h1 : authFailure b 1 = some (authFailMsg b 1) := isSome_eq_some_getD (hb 1)
  have h2 : authFailure b 2 = some (authFailMsg b 2) := isSome_eq_some_getD (hb 2)
  have h3 : authFailure b 3 = some (authFailMsg b 3) := isSome_eq_some_getD (hb 3)
  show runInitBody b (runInitAux b 2)
      { s := { accessToken := none, embedUrl := none, isInitialized := false,
               isLoading := false, retryCount := 0, refreshTimeout := none },
        nAuth := 0, nLink := 0, trace := [] } = _
  rw [runInitBody_authFail b (runInitAux b 2)
      { s := { accessToken := none, embedUrl := none, isInitialized := false,
               isLoading := false, retryCount := 0, refreshTimeout := none },
        nAuth := 0, nLink := 0, trace := [] } (authFailMsg b 0) rfl rfl h0]
  show runInitBody b (runInitAux b 1)
      { s := { accessToken := none, embedUrl := none, isInitialized := false,
               isLoading := false, retryCount := 1, refreshTimeout := none },
        nAuth := 1, nLink := 0,
        trace := [Event.authRequest, Event.delayMs 1000] } = _
  rw [runInitBody_authFail b (runInitAux b 1)
      { s := { accessToken := none, embedUrl := none, isInitialized := false,
               isLoading := false, retryCount := 1, refreshTimeout := none },
        nAuth := 1, nLink := 0,
        trace := [Event.authRequest, Event.delayMs 1000] } (authFailMsg b 1) rfl rfl h1]
  show runInitBody b (runInitAux b 0)
      { s := { accessToken := none, embedUrl := none, isInitialized := false,
               isLoading := false, retryCount := 2, refreshTimeout := none },
        nAuth := 2, nLink := 0,
        trace := [Event.authRequest, Event.delayMs 1000,
                  Event.authRequest, Event.delayMs 2000] } = _
  rw [runInitBody_authFail b (runInitAux b 0)
      { s := { accessToken := none, embedUrl := none, isInitialized := false,
               isLoading := false, retryCount := 2, refreshTimeout := none },
        nAuth := 2, nLink := 0,
        trace := [Event.authRequest, Event.delayMs 1000,
                  Event.authRequest, Event.delayMs 2000] } (authFailMsg b 2) rfl rfl h2]
  show runInitBody b (fun w => (InitResult.err "fuel exhausted", w))
      { s := { accessToken := none, embedUrl := none, isInitialized := false,
               isLoading := false, retryCount := 3, refreshTimeout := none },
        nAuth := 3, nLink := 0,
        trace := [Event.authRequest, Event.delayMs 1000,
                  Event.authRequest, Event.delayMs 2000,
                  Event.authRequest, Event.delayMs 3000] } = _
  rw [runInitBody_authFail b (fun w => (InitResult.err "fuel exhausted", w))
      { s := { accessToken := none, embedUrl := none, isInitialized := false,
               isLoading := false, retryCount := 3, refreshTimeout := none },
        nAuth := 3, nLink := 0,
        trace := [Event.authRequest, Event.delayMs 1000,
                  Event.authRequest, Event.delayMs 2000,
                  Event.authRequest, Event.delayMs 3000] } (authFailMsg b 3) rfl rfl h3]
  rfl

/-- Witness for C1: the always-throwing backend from a fresh manager. -/
theorem init_exhausts_retries_and_reports_witness :
    runInit failingBackend initialWorld =
      (InitResult.err (authFailMsg failingBackend maxRetries),
       { s := { accessToken := none, embedUrl := none, isInitialized := false,
                isLoading := false, retryCount := maxRetries, refreshTimeout := none },
         nAuth := maxRetries + 1, nLink := 0,
         trace := [Event.authRequest, Event.delayMs 1000,
                   Event.authRequest, Event.delayMs 2000,
                   Event.authRequest, Event.delayMs 3000,
                   Event.authRequest,
                   Event.onError "Error en inicialización" (authFailMsg failingBackend maxRetries)
                     { isInitialized := false, isLoading := false,
                       hasAccessToken := false, hasEmbedUrl := false,
                       retryCount := maxRetries }] }) :=
  init_exhausts_retries_and_reports failingBackend (fun _ => rfl)

/-- C2: with a backend that fails authentication on exactly the first two
attempts and then succeeds (and healthy link generation), `init()` on a
fresh manager re-runs the whole sequence from authentication on each retry
(three `authRequest` events, a single `linkRequest` only on the final
attempt), waits 1000 ms and then 2000 ms between the attempts, and succeeds
on the third attempt. -/
theorem init_two_failures_then_success (b : Backend) (t : String) (x : Int) (u : String)
    (hf0 : (authFailure b 0).isSome = true)
    (hf1 : (authFailure b 1).isSome = true)
    (ha : authSuccessData b 2 = some (t, x))
    (hu : linkSuccessData b 0 = some u) :
    runInit b initialWorld =
      (InitResult.ok (some t) (some u),
       { s := { accessToken := some t, embedUrl := some u, isInitialized := true,
                isLoading := false, retryCount := 0,
                refreshTimeout := some ((x - 60) * 1000) },
         nAuth := 3, nLink := 1,
         trace := [Event.authRequest, Event.delayMs 1000,
                   Event.authRequest, Event.delayMs 2000,
                   Event.authRequest, Event.scheduleRefresh ((x - 60) * 1000),
                   Event.linkRequest, Event.onSuccess (some t) (some u)] }) := by
  have h0 : authFailure b 0 = some (authFailMsg b 0) := isSome_eq_some_getD hf0
  have h1 : authFailure b 1 = some (authFailMsg b 1) := isSome_eq_some_getD hf1
  show runInitBody b (runInitAux b 2)
      { s := { accessToken := none, embedUrl := none, isInitialized := false,
               isLoading := false, retryCount := 0, refreshTimeout := none },
        nAuth := 0, nLink := 0, trace := [] } = _
  rw [runInitBody_authFail b (runInitAux b 2)
      { s := { accessToken := none, embedUrl := none, isInitialized := false,
               isLoading := false, retryCount := 0, refreshTimeout := none },
        nAuth := 0, nLink := 0, trace := [] } (authFailMsg b 0) rfl rfl h0]
  show runInitBody b (runInitAux b 1)
      { s := { accessToken := none, embedUrl := none, isInitialized := false,
               isLoading := false, retryCount := 1, refreshTimeout := none },
        nAuth := 1, nLink := 0,
        trace := [Event.authRequest, Event.delayMs 1000] } = _
  rw [runInitBody_authFail b (runInitAux b 1)
      { s := { accessToken := none, embedUrl := none, isInitialized := false,
               isLoading := false, retryCount := 1, refreshTimeout := none },
        nAuth := 1, nLink := 0,
        trace := [Event.authRequest, Event.delayMs 1000] } (authFailMsg b 1) rfl rfl h1]
  show runInitBody b (runInitAux b 0)
      { s := { accessToken := none, embedUrl := none, isInitialized := false,
               isLoading := false, retryCount := 2, refreshTimeout := none },
        nAuth := 2, nLink := 0,
        trace := [Event.authRequest, Event.delayMs 1000,
                  Event.authRequest, Event.delayMs 2000] } = _
  rw [runInitBody_authOk_linkOk b (runInitAux b 0)
      { s := { accessToken := none, embedUrl := none, isInitialized := false,
               isLoading := false, retryCount := 2, refreshTimeout := none },
        nAuth := 2, nLink := 0,
        trace := [Event.authRequest, Event.delayMs 1000,
                  Event.authRequest, Event.delayMs 2000] } t x u rfl rfl ha hu]
  rfl

/-- Witness for C2: the concrete flaky backend. -/
theorem init_two_failures_then_success_witness :
    runInit flakyBackend initialWorld =
      (InitResult.ok (some "tok-nuevo") (some "https-checkout"),
       { s := { accessToken := some "tok-nuevo", embedUrl := some "https-checkout",
                isInitialized := true, isLoading := false, retryCount := 0,
                refreshTimeout := some ((1800 - 60) * 1000) },
         nAuth := 3, nLink := 1,
         trace := [Event.authRequest, Event.delayMs 1000,
                   Event.authRequest, Event.delayMs 2000,
                   Event.authRequest, Event.scheduleRefresh ((1800 - 60) * 1000),
                   Event.linkRequest,
                   Event.onSuccess (some "tok-nuevo") (some "https-checkout")] }) :=
  init_two_failures_then_success flakyBackend "tok-nuevo" 1800 "https-checkout"
    (by decide) (by decide) (by decide) (by decide)

/-! ### Success-state inversion for `init` -/

theorem runInitCatch_ok_inv (retryK : World → InitResult × World) (msg : String) (w : World)
    {t u : Option String} {wf : World}
    (h : runInitCatch retryK msg w = (InitResult.ok t u, wf)) :
    ∃ w2, retryK w2 = (InitResult.ok t u, wf) := by
  by_cases hc : w.s.retryCount < maxRetries
  · rw [runInitCatch_retry retryK msg w hc] at h
    exact ⟨_, h⟩
  · rw [runInitCatch_exhausted retryK msg w hc] at h
    rw [Prod.mk.injEq] at h
    exact absurd h.1 (by simp)

theorem runInitBody_ok_inv (b : Backend) (retryK : World → InitResult × World) (w : World)
    {t u : Option String} {wf : World}
    (hK : ∀ w2 t2 u2 wf2, retryK w2 = (InitResult.ok t2 u2, wf2) →
       wf2.s.retryCount = 0 ∧ wf2.s.isInitialized = true ∧
       wf2.s.accessToken = t2 ∧ wf2.s.embedUrl = u2 ∧ wf2.s.isLoading = false)
    (h : runInitBody b retryK w = (InitResult.ok t u, wf)) :
    wf.s.retryCount = 0 ∧ wf.s.isInitialized = true ∧
    wf.s.accessToken = t ∧ wf.s.embedUrl = u ∧ wf.s.isLoading = false := by
  unfold runInitBody at h
  split at h
  · rw [Prod.mk.injEq] at h
    exact absurd h.1 (by simp)
  · split at h
    · rw [Prod.mk.injEq] at h
      exact absurd h.1 (by simp)
    · rcases hA : runAuthenticate b { w with s := { w.s with isLoading := true } } with ⟨o, w2⟩
      cases o with
      | some msg =>
          simp only [hA] at h
          obtain ⟨w3, h3⟩ := runInitCatch_ok_inv _ _ _ h
          exact hK _ _ _ _ h3
      | none =>
          simp only [hA] at h
          rcases hL : runGenerateEmbedLink b w2 with ⟨o2, w3⟩
          cases o2 with
          | some msg =>
              simp only [hL] at h
              obtain ⟨w4, h4⟩ := runInitCatch_ok_inv _ _ _ h
              exact hK _ _ _ _ h4
          | none =>
              simp only [hL] at h
              unfold runInitSuccess at h
              rw [Prod.mk.injEq] at h
              obtain ⟨hr, hw⟩ := h
              rw [InitResult.ok.injEq] at hr
              subst hw
              exact ⟨rfl, rfl, hr.1, hr.2, rfl⟩

theorem runInitAux_ok_final (b : Backend) :
    ∀ (fuel : Nat) (w : World) (t u : Option String) (wf : World),
      runInitAux b fuel w = (InitResult.ok t u, wf) →
      wf.s.retryCount = 0 ∧ wf.s.isInitialized = true ∧
      wf.s.accessToken = t ∧ wf.s.embedUrl = u ∧ wf.s.isLoading = false := by
  intro fuel
  induction fuel with
  | zero =>
      intro w t u wf h
      refine runInitBody_ok_inv b _ w ?_ h
      intro w2 t2 u2 wf2 h2
      rw [Prod.mk.injEq] at h2
      exact absurd h2.1 (by simp)
  | succ f ih =>
      intro w t u wf h
      exact runInitBody_ok_inv b _ w (fun w2 t2 u2 wf2 h2 => ih w2 t2 u2 wf2 h2) h

/-! ### When the refresh timer is scheduled (C5) -/

/-- Recognizes refresh-timer scheduling events. -/
def isScheduleEvent : Event → Bool
  | Event.scheduleRefresh _ => true
  | _ => false

/-- A world whose retry budget is already exhausted (as a failed `init`
run leaves it: `retryCount = 3`), so the next `init()` makes exactly one
further attempt. -/
def exhaustedWorld : World :=
  { s := { accessToken := none, embedUrl := none, isInitialized := false,
           isLoading := false, retryCount := 3, refreshTimeout := none },
    nAuth := 0, nLink := 0, trace := [] }

/-- C5 counterexample: with a backend whose authentication succeeds but
whose link generation fails, an `init()` attempt schedules the refresh
timer (right after the auth success, before link generation), leaves the
timer pending, and yet never reaches Ready — refuting "the timer is
scheduled only upon the transition to Ready, after both steps succeed". -/
theorem refresh_timer_before_ready_cex :
    ((runInit linkDownBackend exhaustedWorld).2.trace.filter isScheduleEvent).length = 1 ∧
    (runInit linkDownBackend exhaustedWorld).2.s.isInitialized = false ∧
    (runInit linkDownBackend exhaustedWorld).2.s.refreshTimeout = some ((1800 - 60) * 1000) := by
  exact ⟨by decide, by decide, by decide⟩

/-- C5 amended: the refresh timer is scheduled by the authentication step
itself — immediately after every successful authenticate response and
before any link-generation activity, regardless of whether the run ever
reaches Ready — while the retry counter is reset to 0 (and the manager
marked initialized) only when the whole authenticate/link sequence
succeeds. -/
theorem refresh_timer_on_auth_success (b : Backend) :
    (∀ (w : World) (t : String) (x : Int),
       authSuccessData b w.nAuth = some (t, x) →
       (runAuthenticate b w).2.trace =
         w.trace ++ [Event.authRequest, Event.scheduleRefresh ((x - 60) * 1000)] ∧
       (runAuthenticate b w).2.s.refreshTimeout = some ((x - 60) * 1000) ∧
       (runAuthenticate b w).2.s.isInitialized = w.s.isInitialized) ∧
    (∀ (fuel : Nat) (w : World) (t u : Option String) (wf : World),
       runInitAux b fuel w = (InitResult.ok t u, wf) →
       wf.s.retryCount = 0 ∧ wf.s.isInitialized = true) := by
  constructor
  · intro w t x h
    rw [runAuthenticate_ok b w t x h]
    exact ⟨rfl, rfl, rfl⟩
  · intro fuel w t u wf h
    have hf := runInitAux_ok_final b fuel w t u wf h
    exact ⟨hf.1, hf.2.1⟩

/-- Witness for the amended C5 at the healthy backend. -/
theorem refresh_timer_on_auth_success_witness :
    ((runAuthenticate goodBackend initialWorld).2.trace =
       initialWorld.trace ++ [Event.authRequest, Event.scheduleRefresh ((1800 - 60) * 1000)] ∧
     (runAuthenticate goodBackend initialWorld).2.s.refreshTimeout =
       some ((1800 - 60) * 1000) ∧
     (runAuthenticate goodBackend initialWorld).2.s.isInitialized =
       initialWorld.s.isInitialized) ∧
    ((runInit goodBackend initialWorld).2.s.retryCount = 0 ∧
     (runInit goodBackend initialWorld).2.s.isInitialized = true) :=
  ⟨(refresh_timer_on_auth_success goodBackend).1 initialWorld "tok-nuevo" 1800 (by decide),
   (refresh_timer_on_auth_success goodBackend).2 maxRetries initialWorld
     (some "tok-nuevo") (some "https-checkout") (runInit goodBackend initialWorld).2
     (by decide)⟩

/-! ### `refresh` (C8) -/

/-- C8: `refresh()` clears the access token, the embed URL, the retry
counter and the initialized flag, and only then re-runs `init()`; its
outcome is therefore independent of the prior token and URL, and when the
refresh completes successfully, `getAccessToken()` returns exactly the
newly obtained token (and the session holds the newly obtained URL). -/
theorem refresh_clears_before_init (b : Backend) (w : World) :
    (runRefresh b w =
       runInit b { w with s := { w.s with
                                   isInitialized := false, accessToken := none,
                                   embedUrl := none, retryCount := 0 } }) ∧
    (∀ t0 u0, runRefresh b { w with s := { w.s with accessToken := t0, embedUrl := u0 } } =
       runRefresh b w) ∧
    (∀ (t u : Option String) (wf : World),
       runRefresh b w = (InitResult.ok t u, wf) →
       getAccessToken wf.s = Except.ok t ∧ wf.s.accessToken = t ∧ wf.s.embedUrl = u) := by
  refine ⟨rfl, fun t0 u0 => rfl, fun t u wf h => ?_⟩
  have hf := runInitAux_ok_final b maxRetries
    { w with s := { w.s with
                      isInitialized := false, accessToken := none,
                      embedUrl := none, retryCount := 0 } } t u wf h
  refine ⟨?_, hf.2.2.1, hf.2.2.2.1⟩
  unfold getAccessToken
  rw [hf.2.1, hf.2.2.1]
  simp

/-- A Ready world holding a previously obtained (stale) session. -/
def staleWorld : World :=
  { s := { accessToken := some "tok-viejo", embedUrl := some "url-vieja",
           isInitialized := true, isLoading := false, retryCount := 0,
           refreshTimeout := none },
    nAuth := 0, nLink := 0, trace := [] }

/-- Witness for C8: refreshing a stale Ready session against the healthy
backend yields only the new token. -/
theorem refresh_clears_before_init_witness :
    getAccessToken (runRefresh goodBackend staleWorld).2.s = Except.ok (some "tok-nuevo") ∧
    (runRefresh goodBackend staleWorld).2.s.accessToken = some "tok-nuevo" ∧
    (runRefresh goodBackend staleWorld).2.s.embedUrl = some "https-checkout" :=
  (refresh_clears_before_init goodBackend staleWorld).2.2
    (some "tok-nuevo") (some "https-checkout") (runRefresh goodBackend staleWorld).2
    (by decide)

/-! ### `init` while in flight, and `render` (C10) -/

/-- C10: if `init()` is invoked while another `init` is already in flight
(loading flag set, session still empty), the call resolves immediately
with `undefined` — not a session result — without waiting or any request;
`render()`, which awaits that `init()` when not initialized, then proceeds
with `accessToken` and `embedUrl` still null (visible in its api-only
descriptor, which carries both nulls). -/
theorem init_inflight_returns_undefined (b : Backend) (env : Env) (w : World)
    (h1 : w.s.isLoading = true) (h2 : w.s.isInitialized = false)
    (h3 : w.s.accessToken = none) (h4 : w.s.embedUrl = none) :
    runInit b w = (InitResult.skipped, w) ∧
    runRender b env Mode.apiOnly w =
      (Except.ok (RenderResult.apiData none none),
       { w with trace := w.trace ++ [Event.onLoad] }) := by
  have hs := runInit_skip_of_guard b w (Or.inl h1)
  refine ⟨hs, ?_⟩
  unfold runRender
  simp [h2, hs, renderByMode, returnApiData, h3, h4]

/-- Witness for C10 at a concrete loading state. -/
theorem init_inflight_returns_undefined_witness :
    runInit goodBackend { initialWorld with s := { initialSession with isLoading := true } } =
      (InitResult.skipped,
       { initialWorld with s := { initialSession with isLoading := true } }) ∧
    runRender goodBackend Env.node Mode.apiOnly
        { initialWorld with s := { initialSession with isLoading := true } } =
      (Except.ok (RenderResult.apiData none none),
       { s := { initialSession with isLoading := true },
         nAuth := 0, nLink := 0, trace := [Event.onLoad] }) :=
  init_inflight_returns_undefined goodBackend Env.node
    { initialWorld with s := { initialSession with isLoading := true } }
    rfl rfl rfl rfl

/-! ### The session data invariant (C3) -/

/-- The spec's session invariant: an embed URL is only present when an
access token is present, and an initialized manager has both. -/
def SessionInv (s : Session) : Prop :=
  (s.embedUrl.isSome = true → s.accessToken.isSome = true) ∧
  (s.isInitialized = true → s.accessToken.isSome = true ∧ s.embedUrl.isSome = true)

theorem sessionInv_of_fields {s s2 : Session} (h : SessionInv s)
    (ht : s2.accessToken = s.accessToken) (hu : s2.embedUrl = s.embedUrl)
    (hi : s2.isInitialized = s.isInitialized) : SessionInv s2 := by
  constructor
  · intro hx
    rw [hu] at hx
    rw [ht]
    exact h.1 hx
  · intro hx
    rw [hi] at hx
    rw [ht, hu]
    exact h.2 hx

theorem sessionInv_runAuthenticate (b : Backend) (w : World) (h : SessionInv w.s) :
    SessionInv (runAuthenticate b w).2.s := by
  unfold runAuthenticate
  cases hb : b.auth w.nAuth with
  | error e => exact sessionInv_of_fields h rfl rfl rfl
  | ok resp =>
      by_cases hc : (resp.success && jsTruthy resp.data.accessToken) = true
      · have hc2 := hc
        rw [Bool.and_eq_true] at hc2
        have hsome := jsTruthy_isSome hc2.2
        simp only [hb]
        rw [if_pos hc]
        unfold runScheduleTokenRefresh
        refine ⟨fun _ => hsome, fun hi => ⟨hsome, ?_⟩⟩
        exact (h.2 hi).2
      · simp only [hb]
        rw [if_neg hc]
        exact sessionInv_of_fields h rfl rfl rfl

theorem jsTruthy_eq_false {o : Option String} (h : ¬ jsTruthy o = true) :
    jsTruthy o = false := by
  revert h
  cases jsTruthy o <;> simp

theorem link_outcome (b : Backend) (n : Nat) :
    (∃ e, linkFailure b n = some e) ∨ (∃ u, linkSuccessData b n = some u) := by
  cases hb : b.link n with
  | error e =>
      exact Or.inl ⟨e, by unfold linkFailure; simp only [hb]⟩
  | ok resp =>
      by_cases hc : (resp.success && jsTruthy resp.data.embedUrl) = true
      · have hc2 := hc
        rw [Bool.and_eq_true] at hc2
        obtain ⟨u, hu⟩ : ∃ u, resp.data.embedUrl = some u := by
          cases hx : resp.data.embedUrl with
          | none => rw [hx] at hc2; simp [jsTruthy] at hc2
          | some v => exact ⟨v, rfl⟩
        refine Or.inr ⟨u, ?_⟩
        unfold linkSuccessData
        simp only [hb]
        rw [if_pos hc]
        exact hu
      · refine Or.inl ⟨"Error generando enlace: " ++ jsOrStr resp.message "Respuesta inválida", ?_⟩
        unfold linkFailure
        simp only [hb]
        rw [if_neg hc]

theorem sessionInv_runGenerateEmbedLink (b : Backend) (w : World) (h : SessionInv w.s) :
    SessionInv (runGenerateEmbedLink b w).2.s := by
  by_cases ht : jsTruthy w.s.accessToken = true
  · rcases link_outcome b w.nLink with ⟨e, he⟩ | ⟨u, hu⟩
    · rw [runGenerateEmbedLink_fail b w e ht he]
      exact sessionInv_of_fields h rfl rfl rfl
    · rw [runGenerateEmbedLink_ok b w u ht hu]
      exact ⟨fun _ => jsTruthy_isSome ht, fun _ => ⟨jsTruthy_isSome ht, by simp⟩⟩
  · unfold runGenerateEmbedLink
    rw [if_pos (by simp [jsTruthy_eq_false ht])]
    exact h

theorem runGenerateEmbedLink_none_inv (b : Backend) (w wf : World)
    (h : runGenerateEmbedLink b w = (none, wf)) :
    wf.s.accessToken.isSome = true ∧ wf.s.embedUrl.isSome = true := by
  unfold runGenerateEmbedLink at h
  by_cases ht : jsTruthy w.s.accessToken = true
  · rw [if_neg (by simp [ht])] at h
    cases hb : b.link w.nLink with
    | error e =>
        simp only [hb] at h
        rw [Prod.mk.injEq] at h
        exact absurd h.1 (by simp)
    | ok resp =>
        simp only [hb] at h
        by_cases hc : (resp.success && jsTruthy resp.data.embedUrl) = true
        · have hc2 := hc
          rw [Bool.and_eq_true] at hc2
          rw [if_pos hc, Prod.mk.injEq] at h
          rw [← h.2]
          exact ⟨jsTruthy_isSome ht, jsTruthy_isSome hc2.2⟩
        · rw [if_neg hc, Prod.mk.injEq] at h
          exact absurd h.1 (by simp)
  · rw [if_pos (by simp [jsTruthy_eq_false ht]), Prod.mk.injEq] at h
    exact absurd h.1 (by simp)

theorem sessionInv_runInitCatch (retryK : World → InitResult × World) (msg : String)
    (w : World) (h : SessionInv w.s)
    (hK : ∀ w2, SessionInv w2.s → SessionInv (retryK w2).2.s) :
    SessionInv (runInitCatch retryK msg w).2.s := by
  by_cases hc : w.s.retryCount < maxRetries
  · rw [runInitCatch_retry retryK msg w hc]
    exact hK _ (sessionInv_of_fields h rfl rfl rfl)
  · rw [runInitCatch_exhausted retryK msg w hc]
    exact sessionInv_of_fields h rfl rfl rfl

theorem sessionInv_runInitBody (b : Backend) (retryK : World → InitResult × World)
    (w : World) (h : SessionInv w.s)
    (hK : ∀ w2, SessionInv w2.s → SessionInv (retryK w2).2.s) :
    SessionInv (runInitBody b retryK w).2.s := by
  unfold runInitBody
  split
  · exact h
  · split
    · exact h
    · rcases hA : runAuthenticate b { w with s := { w.s with isLoading := true } } with ⟨o, w2⟩
      have h2 : SessionInv w2.s := by
        have hx := sessionInv_runAuthenticate b { w with s := { w.s with isLoading := true } }
          (sessionInv_of_fields h rfl rfl rfl)
        rw [hA] at hx
        exact hx
      cases o with
      | some msg =>
          simp only [hA]
          exact sessionInv_runInitCatch retryK msg w2 h2 hK
      | none =>
          simp only [hA]
          rcases hL : runGenerateEmbedLink b w2 with ⟨o2, w3⟩
          have h3 : SessionInv w3.s := by
            have hx := sessionInv_runGenerateEmbedLink b w2 h2
            rw [hL] at hx
            exact hx
          cases o2 with
          | some msg =>
              simp only [hL]
              exact sessionInv_runInitCatch retryK msg w3 h3 hK
          | none =>
              simp only [hL]
              have hts := runGenerateEmbedLink_none_inv b w2 w3 hL
              unfold runInitSuccess
              exact ⟨fun _ => hts.1, fun _ => ⟨hts.1, hts.2⟩⟩

theorem sessionInv_runInitAux (b : Backend) :
    ∀ (fuel : Nat) (w : World), SessionInv w.s → SessionInv (runInitAux b fuel w).2.s := by
  intro fuel
  induction fuel with
  | zero =>
      intro w h
      exact sessionInv_runInitBody b _ w h (fun w2 h2 => h2)
  | succ f ih =>
      intro w h
      exact sessionInv_runInitBody b _ w h (fun w2 h2 => ih w2 h2)

theorem sessionInv_runInit (b : Backend) (w : World) (h : SessionInv w.s) :
    SessionInv (runInit b w).2.s :=
  sessionInv_runInitAux b maxRetries w h

theorem sessionInv_cleared (s : Session) :
    SessionInv { s with
                   isInitialized := false, accessToken := none,
                   embedUrl := none, retryCount := 0 } := by
  exact ⟨fun hx => by simp at hx, fun hx => by simp at hx⟩

theorem sessionInv_runRefresh (b : Backend) (w : World) :
    SessionInv (runRefresh b w).2.s :=
  sessionInv_runInit b _ (sessionInv_cleared w.s)

theorem sessionInv_runDestroy (s : Session) : SessionInv (runDestroy s) := by
  exact ⟨fun hx => by simp [runDestroy] at hx, fun hx => by simp [runDestroy] at hx⟩

theorem renderByMode_session (env : Env) (mode : Mode) (w : World) :
    (renderByMode env mode w).2.s = w.s := by
  cases mode <;> cases env <;>
    simp [renderByMode, renderIframe, renderWebView, returnApiData]

theorem sessionInv_runRender (b : Backend) (env : Env) (mode : Mode) (w : World)
    (h : SessionInv w.s) : SessionInv (runRender b env mode w).2.s := by
  unfold runRender
  by_cases hi : (!w.s.isInitialized) = true
  · rw [if_pos hi]
    rcases hI : runInit b w with ⟨r, w1⟩
    have h1 : SessionInv w1.s := by
      have hx := sessionInv_runInit b w h
      rw [hI] at hx
      exact hx
    cases r with
    | skipped => rw [renderByMode_session]; exact h1
    | ok t u => rw [renderByMode_session]; exact h1
    | err msg => exact h1
  · rw [if_neg hi]
    rw [renderByMode_session]
    exact h

/-- The sessions reachable by any sequence of completed operations:
construction, `init`, `refresh`, `destroy` and `render` steps, against
arbitrary backends, call counters and prior traces. -/
inductive ReachableS : Session → Prop where
  | start : ReachableS initialSession
  | stepInit {s : Session} (b : Backend) (nA nL : Nat) (tr : List Event) :
      ReachableS s → ReachableS (runInit b { s := s, nAuth := nA, nLink := nL, trace := tr }).2.s
  | stepRefresh {s : Session} (b : Backend) (nA nL : Nat) (tr : List Event) :
      ReachableS s → ReachableS (runRefresh b { s := s, nAuth := nA, nLink := nL, trace := tr }).2.s
  | stepDestroy {s : Session} : ReachableS s → ReachableS (runDestroy s)
  | stepRender {s : Session} (b : Backend) (env : Env) (mode : Mode) (nA nL : Nat)
      (tr : List Event) :
      ReachableS s →
      ReachableS (runRender b env mode { s := s, nAuth := nA, nLink := nL, trace := tr }).2.s

/-- C3: in every session state reachable by any sequence of construction,
`init`, `refresh`, `destroy` and `render` steps, `embedUrl` is non-null
only if `accessToken` is non-null, and `isInitialized` implies both are
non-null. -/
theorem session_state_invariant (s : Session) (h : ReachableS s) : SessionInv s := by
  induction h with
  | start => exact ⟨fun hx => by simp [initialSession] at hx,
                    fun hx => by simp [initialSession] at hx⟩
  | stepInit b nA nL tr hr ih => exact sessionInv_runInit b _ ih
  | stepRefresh b nA nL tr hr ih => exact sessionInv_runRefresh b _
  | stepDestroy hr ih => exact sessionInv_runDestroy _
  | stepRender b env mode nA nL tr hr ih => exact sessionInv_runRender b env mode _ ih

/-- Witness for C3: a concrete reachable session (a successful `init` from
a fresh manager) satisfies the invariant. -/
theorem session_state_invariant_witness :
    SessionInv (runInit goodBackend { s := initialSession, nAuth := 0, nLink := 0,
                                      trace := [] }).2.s :=
  session_state_invariant _
    (ReachableS.stepInit goodBackend 0 0 [] ReachableS.start)

/-! ### Small-step interleaving model (C6)

Cooperative single-threaded async semantics of `init`: a task suspends at
its `await` points — the authenticate request, the link request, and the
retry backoff delay — and every synchronous segment between two awaits
runs atomically, exactly as the source orders its statements.  `initCall`
is any caller entering `init()` (directly, from `render`, or from
`refresh`, whose synchronous field-clearing precedes it); `refreshBusy` /
`refreshGo` are `refresh()` (manual or fired by the scheduled
auto-refresh timer).  Backend responses are nondeterministic. -/

/-- The two early-return guards of `init()` (lines 268-276) as one test. -/
def initGuard (s : Session) : Bool :=
  s.isLoading || (s.isInitialized && jsTruthy s.accessToken)

/-- Passing the guards: `this.isLoading = true` (line 278). -/
def startInit (s : Session) : Session := { s with isLoading := true }

/-- The synchronous prefix of `refresh()` (lines 610-613). -/
def clearForRefresh (s : Session) : Session :=
  { s with isInitialized := false, accessToken := none, embedUrl := none,
           retryCount := 0 }

/-- The await point at which a suspended `init` task sits. -/
inductive TaskPC where
  | awaitingAuth
  | awaitingLink
  | backoff
  deriving Repr, DecidableEq

/-- A configuration: the shared session plus the suspended tasks. -/
structure Config where
  s : Session
  tasks : List TaskPC
  deriving Repr, DecidableEq

/-- One scheduler step: spawn an `init` (or `refresh`) call and run it to
its first await, or resume one suspended task with a nondeterministic
backend outcome and run it to its next await or to completion. -/
inductive CStep : Config → Config → Prop where
  | initCall {st : Session} {ts : List TaskPC} (h : initGuard st = false) :
      CStep { s := st, tasks := ts }
            { s := startInit st, tasks := TaskPC.awaitingAuth :: ts }
  | refreshBusy {st : Session} {ts : List TaskPC} (h : st.isLoading = true) :
      CStep { s := st, tasks := ts } { s := clearForRefresh st, tasks := ts }
  | refreshGo {st : Session} {ts : List TaskPC} (h : st.isLoading = false) :
      CStep { s := st, tasks := ts }
            { s := startInit (clearForRefresh st), tasks := TaskPC.awaitingAuth :: ts }
  | authOk {st : Session} {l r : List TaskPC} (t : String) (ht : ¬ t = "") (x : Int) :
      CStep { s := st, tasks := l ++ TaskPC.awaitingAuth :: r }
            { s := { st with
                       accessToken := some t,
                       refreshTimeout := some ((x - 60) * 1000) },
              tasks := l ++ TaskPC.awaitingLink :: r }
  | authErrRetry {st : Session} {l r : List TaskPC} (h : st.retryCount < maxRetries) :
      CStep { s := st, tasks := l ++ TaskPC.awaitingAuth :: r }
            { s := { st with isLoading := false, retryCount := st.retryCount + 1 },
              tasks := l ++ TaskPC.backoff :: r }
  | authErrStop {st : Session} {l r : List TaskPC} (h : ¬ st.retryCount < maxRetries) :
      CStep { s := st, tasks := l ++ TaskPC.awaitingAuth :: r }
            { s := { st with isLoading := false }, tasks := l ++ r }
  | linkOk {st : Session} {l r : List TaskPC} (u : String) (hu : ¬ u = "") :
      CStep { s := st, tasks := l ++ TaskPC.awaitingLink :: r }
            { s := { st with
                       embedUrl := some u, isInitialized := true,
                       isLoading := false, retryCount := 0 },
              tasks := l ++ r }
  | linkErrRetry {st : Session} {l r : List TaskPC} (h : st.retryCount < maxRetries) :
      CStep { s := st, tasks := l ++ TaskPC.awaitingLink :: r }
            { s := { st with isLoading := false, retryCount := st.retryCount + 1 },
              tasks := l ++ TaskPC.backoff :: r }
  | linkErrStop {st : Session} {l r : List TaskPC} (h : ¬ st.retryCount < maxRetries) :
      CStep { s := st, tasks := l ++ TaskPC.awaitingLink :: r }
            { s := { st with isLoading := false }, tasks := l ++ r }
  | backoffDone {st : Session} {l r : List TaskPC} (h : initGuard st = true) :
      CStep { s := st, tasks := l ++ TaskPC.backoff :: r } { s := st, tasks := l ++ r }
  | backoffGo {st : Session} {l r : List TaskPC} (h : initGuard st = false) :
      CStep { s := st, tasks := l ++ TaskPC.backoff :: r }
            { s := startInit st, tasks := l ++ TaskPC.awaitingAuth :: r }

/-- Configurations reachable from a freshly constructed manager. -/
inductive CReachable : Config → Prop where
  | start : CReachable { s := initialSession, tasks := [] }
  | step {c c2 : Config} : CReachable c → CStep c c2 → CReachable c2

/-- A task is inside the `try` block of `init`, i.e. its network
round-trip sequence is in flight (suspended on a network call, not on a
backoff delay). -/
def isNetWait : TaskPC → Bool
  | TaskPC.awaitingAuth => true
  | TaskPC.awaitingLink => true
  | TaskPC.backoff => false

/-- The number of `init` round-trip sequences currently in flight. -/
def netWaitCount (c : Config) : Nat := (c.tasks.filter isNetWait).length

theorem initGuard_false_loading {st : Session} (h : initGuard st = false) :
    st.isLoading = false := by
  unfold initGuard at h
  rcases Bool.or_eq_false_iff.mp h with ⟨h1, _⟩
  exact h1

theorem netWaitCount_loading {c : Config} (h : CReachable c) :
    netWaitCount c = (if c.s.isLoading = true then 1 else 0) := by
  induction h with
  | start => simp [netWaitCount, initialSession]
  | step hr hs ih =>
      cases hs with
      | initCall hg =>
          have hl := initGuard_false_loading hg
          simp [netWaitCount, isNetWait, startInit, hl, List.filter_append,
                -List.length_eq_zero, -List.filter_eq_nil_iff] at ih ⊢
          omega
      | refreshBusy hl =>
          simp [netWaitCount, isNetWait, clearForRefresh, hl, List.filter_append,
                -List.length_eq_zero, -List.filter_eq_nil_iff] at ih ⊢
          omega
      | refreshGo hl =>
          simp [netWaitCount, isNetWait, startInit, clearForRefresh, hl, List.filter_append,
                -List.length_eq_zero, -List.filter_eq_nil_iff] at ih ⊢
          omega
      | authOk t ht x =>
          rename_i st l r
          cases hL : st.isLoading <;>
            simp [netWaitCount, isNetWait, hL, List.filter_append,
                  -List.length_eq_zero, -List.filter_eq_nil_iff] at ih ⊢ <;>
            omega
      | authErrRetry hk =>
          rename_i st l r
          cases hL : st.isLoading <;>
            simp [netWaitCount, isNetWait, hL, List.filter_append,
                  -List.length_eq_zero, -List.filter_eq_nil_iff] at ih ⊢ <;>
            omega
      | authErrStop hk =>
          rename_i st l r
          cases hL : st.isLoading <;>
            simp [netWaitCount, isNetWait, hL, List.filter_append,
                  -List.length_eq_zero, -List.filter_eq_nil_iff] at ih ⊢ <;>
            omega
      | linkOk u hu =>
          rename_i st l r
          cases hL : st.isLoading <;>
            simp [netWaitCount, isNetWait, hL, List.filter_append,
                  -List.length_eq_zero, -List.filter_eq_nil_iff] at ih ⊢ <;>
            omega
      | linkErrRetry hk =>
          rename_i st l r
          cases hL : st.isLoading <;>
            simp [netWaitCount, isNetWait, hL, List.filter_append,
                  -List.length_eq_zero, -List.filter_eq_nil_iff] at ih ⊢ <;>
            omega
      | linkErrStop hk =>
          rename_i st l r
          cases hL : st.isLoading <;>
            simp [netWaitCount, isNetWait, hL, List.filter_append,
                  -List.length_eq_zero, -List.filter_eq_nil_iff] at ih ⊢ <;>
            omega
      | backoffDone hg =>
          rename_i st l r
          cases hL : st.isLoading <;>
            simp [netWaitCount, isNetWait, hL, List.filter_append,
                  -List.length_eq_zero, -List.filter_eq_nil_iff] at ih ⊢ <;>
            omega
      | backoffGo hg =>
          have hl := initGuard_false_loading hg
          simp [netWaitCount, isNetWait, startInit, hl, List.filter_append,
                -List.length_eq_zero, -List.filter_eq_nil_iff] at ih ⊢
          omega

/-- C6: in every reachable interleaving of `init`, `refresh`, `render` and
the scheduled auto-refresh (cooperative single-threaded tasks), at most one
`init` network round-trip sequence is in flight at any time — including
across the backoff delays between retry attempts — and the number in
flight is exactly what the loading flag says (the flag is the re-entrancy
guard). -/
theorem single_inflight_init (c : Config) (h : CReachable c) :
    netWaitCount c ≤ 1 ∧
    netWaitCount c = (if c.s.isLoading = true then 1 else 0) := by
  have hx := netWaitCount_loading h
  refine ⟨?_, hx⟩
  rw [hx]
  split <;> omega

/-- Witness for C6 at the initial configuration. -/
theorem single_inflight_init_witness :
    netWaitCount { s := initialSession, tasks := [] } ≤ 1 ∧
    netWaitCount { s := initialSession, tasks := [] } =
      (if (initialSession : Session).isLoading = true then 1 else 0) :=
  single_inflight_init { s := initialSession, tasks := [] } CReachable.start

end Sintesis
